import Mathlib

/-!
Music Library Management System: verification of the specification against the source.

Shallow embedding of the core of the repository (src/main.py, src/login.py,
src/records.py): salted password hashing and authentication, the admin-gated
record-store gateway (`add_record` / `remove_record`) with modification-history
logging and integrity checksums, and account registration.

Modelling conventions:
* Bytes (`bytes` in Python) are lists of naturals.
* `hashlib.pbkdf2_hmac('sha256', ...)` and `hashlib.sha256(...).hexdigest()`
  are external library collaborators; they are modelled as abstract function
  parameters (`KDF`, `SHA`) threaded through the definitions, exactly where the
  source calls them.
* `os.urandom(16)` is modelled as an entropy input supplied by the environment.
* The SQLite store is modelled as explicit state (`DB`): each table is a list
  of rows in insertion order with an AUTOINCREMENT counter; `fetchone` after a
  `WHERE col = ?` query is `List.find?`; SQL constraint violations and other
  raised exceptions are `none` results; timestamps are outside the model.
* Python functions that print and return `None` are modelled as returning the
  new state, the Python return value, and the list of printed messages (with
  timestamps abstracted away in the message constructors).
-/

/-- A byte string (Python `bytes`). -/
abbrev Bytes := List Nat

/-- Abstract model of `hashlib.pbkdf2_hmac('sha256', password.encode(), salt, iterations)`:
a function of the password, the salt and the iteration count. -/
abbrev KDF := String → Bytes → Nat → Bytes

/-- Abstract model of `hashlib.sha256(data).hexdigest()`: a function from the
raw payload bytes to the hex-digest string. -/
abbrev SHA := Bytes → String

/-- A value in a Python data dict passed to `add_record`: a text column value
or a BLOB column value. -/
inductive Value where
  | text : String → Value
  | blob : Bytes → Value
deriving DecidableEq

/-- The `data` dict passed to `add_record`: column name to value, in key order. -/
abbrev Fields := List (String × Value)

/-- Fetch a text column value from a data dict. -/
def getText (data : Fields) (col : String) : Option String :=
  match data.lookup col with
  | some (Value.text s) => some s
  | _ => none

/-- Fetch a BLOB column value from a data dict. -/
def getBlob (data : Fields) (col : String) : Option Bytes :=
  match data.lookup col with
  | some (Value.blob b) => some b
  | _ => none

/-- Every key of the data dict is one of the given column names (the SQL
INSERT built from the dict's keys names only columns of the table schema). -/
def keysIn (data : Fields) (cols : List String) : Bool :=
  data.all (fun kv => cols.contains kv.1)

/-- A row of the `users` table (main.py DDL, lines 101-112). -/
structure UserRow where
  id : Nat
  account_id : Nat
  username : String
  password_hash : Bytes
  salt : Bytes
  role : String
deriving DecidableEq

/-- A row of the `accounts` table (main.py DDL, lines 85-94). -/
structure AccountRow where
  id : Nat
  first_name : String
  last_name : String
  date_of_birth : String
  email : String
deriving DecidableEq

/-- A row of the `lyrics` table (main.py DDL, lines 41-48). -/
structure LyricsRow where
  id : Nat
  song_title : String
  lyrics : String
deriving DecidableEq

/-- A row of the `music_scores` table (main.py DDL, lines 55-62). -/
structure ScoreRow where
  id : Nat
  song_title : String
  score : Bytes
deriving DecidableEq

/-- A row of the `musical_recordings` table (main.py DDL, lines 26-34). -/
structure RecordingRow where
  id : Nat
  song_title : String
  recording : Bytes
  checksum : String
deriving DecidableEq

/-- A row of the `modification_history` table (main.py DDL, lines 69-77). -/
structure HistEntry where
  id : Nat
  table_name : String
  action : String
  record_id : Nat
deriving DecidableEq

/-- The SQLite database state: the six tables of the DDL, each a list of rows
in insertion order together with its AUTOINCREMENT counter. -/
structure DB where
  accounts : List AccountRow
  accounts_next : Nat
  users : List UserRow
  users_next : Nat
  lyrics : List LyricsRow
  lyrics_next : Nat
  music_scores : List ScoreRow
  music_scores_next : Nat
  musical_recordings : List RecordingRow
  musical_recordings_next : Nat
  modification_history : List HistEntry
  history_next : Nat
deriving DecidableEq

/-- A message printed by the Python code (timestamps abstracted away). -/
inductive Msg where
  | permissionDeniedCreate
  | permissionDeniedDelete
  | recordAdded : String → Msg
  | recordDeleted : String → Msg
  | registrationFailedEmail : String → Msg
  | registrationFailedUsername : String → Msg
  | userRegistered : String → Msg
deriving DecidableEq

/-- Result of a non-raising run of a mutating Python function: the new store
state, the Python return value (`None` is `none`), and the printed output. -/
structure PyRes where
  db : DB
  ret : Option Nat
  out : List Msg
deriving DecidableEq

/-- main.py lines 140-145, `Login.hash_password(password, salt=None, iterations=100000)`:
if no salt is given, the 16 bytes drawn from `os.urandom(16)` (the `urandom16`
input) become the salt; the hash is PBKDF2-HMAC-SHA256 of the password with
that salt and iteration count; the pair (hash, salt) is returned. -/
def Login.hash_password (kdf : KDF) (urandom16 : Bytes) (password : String)
    (salt : Option Bytes) (iterations : Nat) : Bytes × Bytes :=
  match salt with
  | none => (kdf password urandom16 iterations, urandom16)
  | some s => (kdf password s iterations, s)

/-- main.py lines 154-163, `Login.authenticate_user(username, password)`:
look up the first `users` row whose username matches; if found, recompute the
hash from the supplied password with the stored salt via `Login.hash_password`
(salt supplied, so the entropy argument is never consumed; iterations default
to 100000) and return the stored role on hash match; otherwise return None. -/
def Login.authenticate_user (kdf : KDF) (users : List UserRow)
    (username password : String) : Option String :=
  match users.find? (fun u => u.username == username) with
  | some u =>
      let test_hash := (Login.hash_password kdf [] password (some u.salt) 100000).1
      if test_hash == u.password_hash then some u.role else none
  | none => none

/-- login.py lines 25-34, module-level `authenticate_user(username, password)`:
same lookup; the hash is recomputed by calling `hashlib.pbkdf2_hmac` directly
with the stored salt and 100000 iterations. -/
def LoginPy.authenticate_user (kdf : KDF) (users : List UserRow)
    (username password : String) : Option String :=
  match users.find? (fun u => u.username == username) with
  | some u => if kdf password u.salt 100000 == u.password_hash then some u.role else none
  | none => none

/-- records.py lines 17-26, module-level `authenticate_user(username, password)`:
textually the same algorithm as login.py's. -/
def RecordsPy.authenticate_user (kdf : KDF) (users : List UserRow)
    (username password : String) : Option String :=
  match users.find? (fun u => u.username == username) with
  | some u => if kdf password u.salt 100000 == u.password_hash then some u.role else none
  | none => none

/-- records.py lines 74-80, `create_lyrics(song_title, lyrics)`: open a fresh
connection, INSERT the row into the lyrics table (with an explicit timestamp
column, outside this model), commit, close, and print a confirmation. This
path writes no modification_history entry — the records.py mutation helpers
(`create_lyrics`, `add_music_score`, `add_musical_recording`, the three
`delete_*` functions) never touch that table. -/
def RecordsPy.create_lyrics (db : DB) (song_title lyrics : String) : DB :=
  { db with lyrics := db.lyrics ++ [⟨db.lyrics_next, song_title, lyrics⟩],
            lyrics_next := db.lyrics_next + 1 }

/-- main.py lines 169-170, `compute_checksum(data)`: the SHA-256 hex digest of
the raw payload bytes. -/
def compute_checksum (sha : SHA) (data : Bytes) : String :=
  sha data

/-- main.py lines 191-195: the `musical_recordings` branch of `add_record`
computes the checksum of `data['recording']` and appends a `checksum` column
to the values to insert; `data['recording']` missing (or not bytes) raises
(`none`). For any other table the data dict is passed through unchanged. -/
def prepare_values (sha : SHA) (table : String) (data : Fields) : Option Fields :=
  if table == "musical_recordings" then
    match getBlob data "recording" with
    | some r => some (data ++ [("checksum", Value.text (compute_checksum sha r))])
    | none => none
  else some data

/-- Model of `INSERT INTO lyrics (columns) VALUES (values)` under the lyrics schema:
succeeds when the dict supplies the NOT NULL columns `song_title` and `lyrics`
and names no other column; the new row gets the AUTOINCREMENT id, which
`cursor.lastrowid` reports. -/
def insert_lyrics (db : DB) (data : Fields) : Option (DB × Nat) :=
  match getText data "song_title", getText data "lyrics" with
  | some t, some l =>
      if keysIn data ["song_title", "lyrics"] then
        some ({ db with lyrics := db.lyrics ++ [⟨db.lyrics_next, t, l⟩],
                        lyrics_next := db.lyrics_next + 1 }, db.lyrics_next)
      else none
  | _, _ => none

/-- Model of `INSERT INTO music_scores (columns) VALUES (values)` under the
music_scores schema (NOT NULL columns `song_title`, `score`). -/
def insert_music_scores (db : DB) (data : Fields) : Option (DB × Nat) :=
  match getText data "song_title", getBlob data "score" with
  | some t, some s =>
      if keysIn data ["song_title", "score"] then
        some ({ db with music_scores := db.music_scores ++ [⟨db.music_scores_next, t, s⟩],
                        music_scores_next := db.music_scores_next + 1 }, db.music_scores_next)
      else none
  | _, _ => none

/-- Model of `INSERT INTO musical_recordings (columns) VALUES (values)` under the
musical_recordings schema (NOT NULL columns `song_title`, `recording`,
`checksum`). -/
def insert_musical_recordings (db : DB) (data : Fields) : Option (DB × Nat) :=
  match getText data "song_title", getBlob data "recording", getText data "checksum" with
  | some t, some r, some c =>
      if keysIn data ["song_title", "recording", "checksum"] then
        some ({ db with musical_recordings :=
                          db.musical_recordings ++ [⟨db.musical_recordings_next, t, r, c⟩],
                        musical_recordings_next := db.musical_recordings_next + 1 },
              db.musical_recordings_next)
      else none
  | _, _, _ => none

/-- main.py line 197, `cursor.execute(f'INSERT INTO {table} ...', values)`:
the table name is interpolated into the SQL, so the store dispatches on it.
The model covers the three content tables the gateway is specified over; any
other table name is a raised store error (`none`). -/
def executeInsert (db : DB) (table : String) (data : Fields) : Option (DB × Nat) :=
  if table == "lyrics" then insert_lyrics db data
  else if table == "music_scores" then insert_music_scores db data
  else if table == "musical_recordings" then insert_musical_recordings db data
  else none

/-- main.py lines 199-200 and 220-221: `INSERT INTO modification_history
(table_name, action, record_id) VALUES (?, ?, ?)` — append one ledger entry. -/
def append_history (db : DB) (table action : String) (record_id : Nat) : DB :=
  { db with modification_history :=
              db.modification_history ++ [⟨db.history_next, table, action, record_id⟩],
            history_next := db.history_next + 1 }

/-- main.py line 219, `cursor.execute(f'DELETE FROM {table} WHERE id = ?', ...)`:
delete every row of the named table whose id equals the given record id (a
no-op when none matches); an unknown table name is a raised store error. -/
def executeDelete (db : DB) (table : String) (record_id : Nat) : Option DB :=
  if table == "lyrics" then
    some { db with lyrics := db.lyrics.filter (fun r => r.id != record_id) }
  else if table == "music_scores" then
    some { db with music_scores := db.music_scores.filter (fun r => r.id != record_id) }
  else if table == "musical_recordings" then
    some { db with musical_recordings := db.musical_recordings.filter (fun r => r.id != record_id) }
  else if table == "modification_history" then
    some { db with modification_history := db.modification_history.filter (fun e => e.id != record_id) }
  else if table == "users" then
    some { db with users := db.users.filter (fun u => u.id != record_id) }
  else if table == "accounts" then
    some { db with accounts := db.accounts.filter (fun a => a.id != record_id) }
  else none

/-- main.py lines 176-202, `add_record(username, password, table, data)`:
authenticate; a role other than `'admin'` (including failed authentication)
prints Permission Denied and returns None without touching the store. Else
prepare the values (checksum branch), run the INSERT, log one INSERT history
entry with `cursor.lastrowid`, print the confirmation, and return None (the
function has no return statement on this path). -/
def add_record (kdf : KDF) (sha : SHA) (db : DB) (username password table : String)
    (data : Fields) : Option PyRes :=
  let role := Login.authenticate_user kdf db.users username password
  if role != some "admin" then
    some ⟨db, none, [Msg.permissionDeniedCreate]⟩
  else
    match prepare_values sha table data with
    | none => none
    | some data2 =>
        match executeInsert db table data2 with
        | none => none
        | some (db2, record_id) =>
            some ⟨append_history db2 table "INSERT" record_id, none,
                  [Msg.recordAdded table]⟩

/-- main.py lines 213-223, `remove_record(username, password, table, record_id)`:
authenticate; a role other than `'admin'` prints Permission Denied and returns
None without touching the store. Else run the DELETE (a no-op when the id does
not exist), log one DELETE history entry with the given record id
unconditionally, print the confirmation, and return None. -/
def remove_record (kdf : KDF) (db : DB) (username password table : String)
    (record_id : Nat) : Option PyRes :=
  let role := Login.authenticate_user kdf db.users username password
  if role != some "admin" then
    some ⟨db, none, [Msg.permissionDeniedDelete]⟩
  else
    match executeDelete db table record_id with
    | none => none
    | some db2 =>
        some ⟨append_history db2 table "DELETE" record_id, none,
              [Msg.recordDeleted table]⟩

/-- main.py lines 129-133, `Account.save`: INSERT the account row and return
`cursor.lastrowid`; the `email` column is UNIQUE, so a duplicate email raises
an IntegrityError (`none`). -/
def Account.save (db : DB) (first_name last_name date_of_birth email : String) :
    Option (DB × Nat) :=
  if db.accounts.any (fun a => a.email == email) then none
  else
    some ({ db with accounts :=
                      db.accounts ++ [⟨db.accounts_next, first_name, last_name,
                                       date_of_birth, email⟩],
                    accounts_next := db.accounts_next + 1 }, db.accounts_next)

/-- main.py lines 147-152, `Login.add_user`: hash the password with a fresh
random salt (no salt argument, so `os.urandom(16)` is consumed) and INSERT the
users row; `username` is UNIQUE and `role` is CHECKed to be `'user'` or
`'admin'`, so violating either raises an IntegrityError (`none`). -/
def Login.add_user (kdf : KDF) (urandom16 : Bytes) (db : DB) (account_id : Nat)
    (username password role : String) : Option DB :=
  let ph := Login.hash_password kdf urandom16 password none 100000
  if db.users.any (fun u => u.username == username) then none
  else if role == "user" || role == "admin" then
    some { db with users := db.users ++ [⟨db.users_next, account_id, username,
                                          ph.1, ph.2, role⟩],
                   users_next := db.users_next + 1 }
  else none

/-- Python's `str.lower()` on the role input (ASCII case mapping suffices for
the role strings this system compares against). -/
def pyLower (s : String) : String :=
  String.mk (s.data.map Char.toLower)

/-- main.py lines 231-254, `register_user()`: the seven `input()` values are
parameters (the role input is lowercased as in the source). Check the email
against `accounts`; on a hit print the email failure and return (None, None).
Then check the username against `users`; on a hit print the username failure
and return (None, None). Else save the Account, add the user credential linked
by the account id, print success and return (username, password). -/
def register_user (kdf : KDF) (urandom16 : Bytes) (db : DB)
    (first_name last_name date_of_birth email username password role_input : String) :
    Option (DB × Option (String × String) × List Msg) :=
  let role := pyLower role_input
  if db.accounts.any (fun a => a.email == email) then
    some (db, none, [Msg.registrationFailedEmail email])
  else if db.users.any (fun u => u.username == username) then
    some (db, none, [Msg.registrationFailedUsername username])
  else
    match Account.save db first_name last_name date_of_birth email with
    | none => none
    | some (db1, account_id) =>
        match Login.add_user kdf urandom16 db1 account_id username password role with
        | none => none
        | some db2 => some (db2, some (username, password), [Msg.userRegistered username])

/-- The ids of the rows currently in a content table, in row order. -/
def table_ids (db : DB) (table : String) : List Nat :=
  if table == "lyrics" then db.lyrics.map (fun r => r.id)
  else if table == "music_scores" then db.music_scores.map (fun r => r.id)
  else if table == "musical_recordings" then db.musical_recordings.map (fun r => r.id)
  else []

/-- The three content tables of the gateway. -/
def isContent (table : String) : Bool :=
  table == "lyrics" || table == "music_scores" || table == "musical_recordings"

/-! ## Concrete instances used to evaluate the theorems -/

/-- A concrete key-derivation function for evaluating theorems on inputs
(stands in for PBKDF2-HMAC-SHA256 in witnesses). -/
def testKdf : KDF :=
  fun password salt _ => salt ++ (password.data.map Char.toNat)

/-- A concrete digest function for evaluating theorems on inputs
(stands in for the SHA-256 hex digest in witnesses). -/
def testSha : SHA :=
  fun b => String.mk (List.replicate b.length 'c')

/-- Two registered credentials: a regular user and an administrator, with
password hashes matching password "pw" under `testKdf`. -/
def demoUsers : List UserRow :=
  [⟨1, 1, "alice", [1, 112, 119], [1], "user"⟩,
   ⟨2, 2, "bob", [2, 112, 119], [2], "admin"⟩]

/-- A concrete database state with one account and the two demo credentials. -/
def demoDB : DB :=
  ⟨[⟨1, "Alice", "Smith", "1990-01-01", "alice@example.com"⟩], 2,
   demoUsers, 3, [], 1, [], 1, [], 1, [], 1⟩

/-- A concrete data dict for an insert into the lyrics table. -/
def demoData : Fields :=
  [("song_title", Value.text "X"), ("lyrics", Value.text "la")]

/-- A concrete data dict for an insert into the musical_recordings table. -/
def demoRecData : Fields :=
  [("song_title", Value.text "X"), ("recording", Value.blob [1, 2])]

/-- State of `demoDB` after the lyrics insert of `demoData` (before history logging). -/
def demoDBIns : DB :=
  { demoDB with lyrics := [⟨1, "X", "la"⟩], lyrics_next := 2 }

/-- State of `demoDBIns` after INSERT logging and deletion of lyrics row 1 (before the
DELETE logging). -/
def demoDBDel : DB :=
  { demoDBIns with lyrics := [],
                   modification_history := [⟨1, "lyrics", "INSERT", 1⟩],
                   history_next := 2 }

/-! ## Helper lemmas about dict lookup and key sets -/

theorem lookup_cons (k k1 : String) (v1 : Value) (tl : Fields) :
    List.lookup k ((k1, v1) :: tl) = if k == k1 then some v1 else List.lookup k tl := by
  cases h : (k == k1) <;> simp [List.lookup, h]

theorem lookup_append_of_some {l1 l2 : Fields} {k : String} {v : Value}
    (h : List.lookup k l1 = some v) : List.lookup k (l1 ++ l2) = some v := by
  induction l1 with
  | nil => simp [List.lookup] at h
  | cons hd tl ih =>
      obtain ⟨k1, v1⟩ := hd
      rw [lookup_cons] at h
      rw [List.cons_append, lookup_cons]
      by_cases hk : (k == k1) = true
      · rw [if_pos hk] at h; rw [if_pos hk]; exact h
      · rw [if_neg hk] at h
        rw [if_neg hk]
        exact ih h

theorem lookup_append_of_none {l1 l2 : Fields} {k : String}
    (h : List.lookup k l1 = none) : List.lookup k (l1 ++ l2) = List.lookup k l2 := by
  induction l1 with
  | nil => simp
  | cons hd tl ih =>
      obtain ⟨k1, v1⟩ := hd
      rw [lookup_cons] at h
      rw [List.cons_append, lookup_cons]
      by_cases hk : (k == k1) = true
      · rw [if_pos hk] at h; simp at h
      · rw [if_neg hk] at h
        rw [if_neg hk]
        exact ih h

theorem getText_eq_some {data : Fields} {c s : String} :
    getText data c = some s ↔ List.lookup c data = some (Value.text s) := by
  unfold getText
  cases h : List.lookup c data with
  | none => simp
  | some v => cases v <;> simp

theorem getBlob_eq_some {data : Fields} {c : String} {b : Bytes} :
    getBlob data c = some b ↔ List.lookup c data = some (Value.blob b) := by
  unfold getBlob
  cases h : List.lookup c data with
  | none => simp
  | some v => cases v <;> simp

theorem lookup_none_of_keysIn {data : Fields} {cols : List String} {k : String}
    (hk : keysIn data cols = true) (hnc : cols.contains k = false) :
    List.lookup k data = none := by
  induction data with
  | nil => rfl
  | cons hd tl ih =>
      obtain ⟨k1, v1⟩ := hd
      simp only [keysIn, List.all_cons, Bool.and_eq_true] at hk
      obtain ⟨h1, h2⟩ := hk
      have hne : ¬ ((k == k1) = true) := by
        intro hbe
        have hkk : k = k1 := beq_iff_eq.mp hbe
        subst hkk
        simp only [hnc] at h1
        exact Bool.false_ne_true h1
      rw [lookup_cons, if_neg hne]
      exact ih h2

theorem keysIn_extend {data : Fields}
    (h : keysIn data ["song_title", "recording"] = true) :
    keysIn data ["song_title", "recording", "checksum"] = true := by
  unfold keysIn at h ⊢
  rw [List.all_eq_true] at h ⊢
  intro kv hkv
  have := h kv hkv
  simp only [List.contains_cons, Bool.or_eq_true] at this ⊢
  tauto

theorem keysIn_append {l1 l2 : Fields} {cols : List String} :
    keysIn (l1 ++ l2) cols = (keysIn l1 cols && keysIn l2 cols) := by
  unfold keysIn
  exact List.all_append

/-! ## Structure of the store operations -/

theorem isContent_cases {table : String} (h : isContent table = true) :
    table = "lyrics" ∨ table = "music_scores" ∨ table = "musical_recordings" := by
  unfold isContent at h
  simp only [Bool.or_eq_true, beq_iff_eq] at h
  tauto

theorem insert_lyrics_eq {db : DB} {data : Fields} {t l : String}
    (ht : getText data "song_title" = some t) (hl : getText data "lyrics" = some l)
    (hk : keysIn data ["song_title", "lyrics"] = true) :
    insert_lyrics db data =
      some ({ db with lyrics := db.lyrics ++ [⟨db.lyrics_next, t, l⟩],
                      lyrics_next := db.lyrics_next + 1 }, db.lyrics_next) := by
  unfold insert_lyrics
  rw [ht, hl]
  simp [hk]

theorem insert_musical_recordings_eq {db : DB} {data : Fields} {t c : String} {r : Bytes}
    (ht : getText data "song_title" = some t) (hr : getBlob data "recording" = some r)
    (hc : getText data "checksum" = some c)
    (hk : keysIn data ["song_title", "recording", "checksum"] = true) :
    insert_musical_recordings db data =
      some ({ db with musical_recordings :=
                        db.musical_recordings ++ [⟨db.musical_recordings_next, t, r, c⟩],
                      musical_recordings_next := db.musical_recordings_next + 1 },
            db.musical_recordings_next) := by
  unfold insert_musical_recordings
  rw [ht, hr, hc]
  simp [hk]

theorem executeInsert_spec {db : DB} {table : String} {data : Fields} {db1 : DB} {rid : Nat}
    (h : executeInsert db table data = some (db1, rid)) :
    isContent table = true ∧
    db1.modification_history = db.modification_history ∧
    db1.history_next = db.history_next ∧
    db1.users = db.users ∧
    db1.accounts = db.accounts ∧
    table_ids db1 table = table_ids db table ++ [rid] := by
  unfold executeInsert at h
  by_cases h1 : table = "lyrics"
  · subst h1
    simp only [beq_self_eq_true, if_true] at h
    unfold insert_lyrics at h
    split at h
    · split at h
      · simp only [Option.some.injEq, Prod.mk.injEq] at h
        obtain ⟨hdb, hrid⟩ := h
        subst hdb; subst hrid
        simp [table_ids, isContent]
      · simp at h
    · simp at h
  · have e1 : (table == "lyrics") = false := by simp [h1]
    rw [e1] at h
    simp only [Bool.false_eq_true, if_false] at h
    by_cases h2 : table = "music_scores"
    · subst h2
      simp only [beq_self_eq_true, if_true] at h
      unfold insert_music_scores at h
      split at h
      · split at h
        · simp only [Option.some.injEq, Prod.mk.injEq] at h
          obtain ⟨hdb, hrid⟩ := h
          subst hdb; subst hrid
          simp [table_ids, isContent]
        · simp at h
      · simp at h
    · have e2 : (table == "music_scores") = false := by simp [h2]
      rw [e2] at h
      simp only [Bool.false_eq_true, if_false] at h
      by_cases h3 : table = "musical_recordings"
      · subst h3
        simp only [beq_self_eq_true, if_true] at h
        unfold insert_musical_recordings at h
        split at h
        · split at h
          · simp only [Option.some.injEq, Prod.mk.injEq] at h
            obtain ⟨hdb, hrid⟩ := h
            subst hdb; subst hrid
            simp [table_ids, isContent]
          · simp at h
        · simp at h
      · have e3 : (table == "musical_recordings") = false := by simp [h3]
        rw [e3] at h
        simp at h

theorem executeDelete_lyrics (db : DB) (rid : Nat) :
    executeDelete db "lyrics" rid =
      some { db with lyrics := db.lyrics.filter (fun r => r.id != rid) } := by
  simp [executeDelete]

theorem executeDelete_music_scores (db : DB) (rid : Nat) :
    executeDelete db "music_scores" rid =
      some { db with music_scores := db.music_scores.filter (fun r => r.id != rid) } := by
  simp [executeDelete]

theorem executeDelete_musical_recordings (db : DB) (rid : Nat) :
    executeDelete db "musical_recordings" rid =
      some { db with musical_recordings :=
                       db.musical_recordings.filter (fun r => r.id != rid) } := by
  simp [executeDelete]

theorem filter_map_comm {α : Type} (f : α → Nat) (l : List α) (rid : Nat) :
    (l.filter (fun r => f r != rid)).map f = (l.map f).filter (fun i => i != rid) := by
  induction l with
  | nil => rfl
  | cons hd tl ih =>
      by_cases h : (f hd != rid) = true
      · simp only [List.filter_cons, h, if_true, List.map_cons, ih]
      · simp only [Bool.not_eq_true] at h
        simp only [List.filter_cons, h, List.map_cons, ih]
        exact ih

/-- On a content table, `executeDelete` succeeds, filters the target id out of
that table, and leaves the history ledger, the users and the accounts alone. -/
theorem executeDelete_content_spec {db : DB} {table : String} {rid : Nat}
    (hc : isContent table = true) :
    ∃ db1, executeDelete db table rid = some db1 ∧
      db1.modification_history = db.modification_history ∧
      db1.history_next = db.history_next ∧
      db1.users = db.users ∧
      db1.accounts = db.accounts ∧
      table_ids db1 table = (table_ids db table).filter (fun i => i != rid) := by
  rcases isContent_cases hc with h | h | h
  · subst h
    refine ⟨_, executeDelete_lyrics db rid, rfl, rfl, rfl, rfl, ?_⟩
    simp only [table_ids]
    simp [filter_map_comm]
  · subst h
    refine ⟨_, executeDelete_music_scores db rid, rfl, rfl, rfl, rfl, ?_⟩
    simp only [table_ids]
    simp [filter_map_comm]
  · subst h
    refine ⟨_, executeDelete_musical_recordings db rid, rfl, rfl, rfl, rfl, ?_⟩
    simp only [table_ids]
    simp [filter_map_comm]

/-- When the target id is absent, the DELETE on a content table is a no-op:
the resulting state is the starting state. -/
theorem executeDelete_content_noop {db : DB} {table : String} {rid : Nat}
    (hc : isContent table = true) (habs : rid ∉ table_ids db table) :
    executeDelete db table rid = some db := by
  rcases isContent_cases hc with h | h | h
  · subst h
    rw [executeDelete_lyrics]
    have : db.lyrics.filter (fun r => r.id != rid) = db.lyrics := by
      apply List.filter_eq_self.mpr
      intro a ha
      simp only [bne_iff_ne, ne_eq]
      intro hcon
      exact habs (by simp [table_ids]; exact ⟨a, ha, hcon⟩)
    rw [this]
  · subst h
    rw [executeDelete_music_scores]
    have : db.music_scores.filter (fun r => r.id != rid) = db.music_scores := by
      apply List.filter_eq_self.mpr
      intro a ha
      simp only [bne_iff_ne, ne_eq]
      intro hcon
      exact habs (by simp [table_ids]; exact ⟨a, ha, hcon⟩)
    rw [this]
  · subst h
    rw [executeDelete_musical_recordings]
    have : db.musical_recordings.filter (fun r => r.id != rid) = db.musical_recordings := by
      apply List.filter_eq_self.mpr
      intro a ha
      simp only [bne_iff_ne, ne_eq]
      intro hcon
      exact habs (by simp [table_ids]; exact ⟨a, ha, hcon⟩)
    rw [this]

/-! ## Success and denial paths of the gateway -/

theorem add_record_denied {kdf : KDF} {sha : SHA} {db : DB} {u p table : String}
    {data : Fields} (h : Login.authenticate_user kdf db.users u p ≠ some "admin") :
    add_record kdf sha db u p table data =
      some ⟨db, none, [Msg.permissionDeniedCreate]⟩ := by
  unfold add_record
  have hb : (Login.authenticate_user kdf db.users u p != some "admin") = true :=
    bne_iff_ne.mpr h
  simp [hb]

theorem remove_record_denied {kdf : KDF} {db : DB} {u p table : String} {rid : Nat}
    (h : Login.authenticate_user kdf db.users u p ≠ some "admin") :
    remove_record kdf db u p table rid =
      some ⟨db, none, [Msg.permissionDeniedDelete]⟩ := by
  unfold remove_record
  have hb : (Login.authenticate_user kdf db.users u p != some "admin") = true :=
    bne_iff_ne.mpr h
  simp [hb]

theorem add_record_admin {kdf : KDF} {sha : SHA} {db : DB} {u p table : String}
    {data data2 : Fields} {db1 : DB} {rid : Nat}
    (hadmin : Login.authenticate_user kdf db.users u p = some "admin")
    (hprep : prepare_values sha table data = some data2)
    (hins : executeInsert db table data2 = some (db1, rid)) :
    add_record kdf sha db u p table data =
      some ⟨append_history db1 table "INSERT" rid, none, [Msg.recordAdded table]⟩ := by
  unfold add_record
  rw [hadmin]
  simp [hprep, hins]

theorem remove_record_admin {kdf : KDF} {db : DB} {u p table : String}
    {rid : Nat} {db1 : DB}
    (hadmin : Login.authenticate_user kdf db.users u p = some "admin")
    (hdel : executeDelete db table rid = some db1) :
    remove_record kdf db u p table rid =
      some ⟨append_history db1 table "DELETE" rid, none, [Msg.recordDeleted table]⟩ := by
  unfold remove_record
  rw [hadmin]
  simp [hdel]

theorem table_ids_append_history (db : DB) (t a : String) (r : Nat) (table : String) :
    table_ids (append_history db t a r) table = table_ids db table := rfl

/-! ## Claims -/

/-- C1: `Login.authenticate_user` returns a role `r` if and only if the
username matches a stored credential and PBKDF2-HMAC-SHA256 of the supplied
password with the stored salt and 100000 iterations equals the stored hash,
`r` being that credential's registered role; a nonexistent username and a
correct username with a wrong password both return the same Unauthenticated
result `none`, so the two failure paths are indistinguishable in return
shape. -/
theorem authenticate_user_correct (kdf : KDF) (users : List UserRow)
    (username password : String) :
    (∀ r : String, Login.authenticate_user kdf users username password = some r ↔
      ∃ u, users.find? (fun x => x.username == username) = some u ∧
        kdf password u.salt 100000 = u.password_hash ∧ u.role = r) ∧
    (users.find? (fun x => x.username == username) = none →
      Login.authenticate_user kdf users username password = none) ∧
    (∀ u, users.find? (fun x => x.username == username) = some u →
      kdf password u.salt 100000 ≠ u.password_hash →
      Login.authenticate_user kdf users username password = none) := by
  refine ⟨?_, ?_, ?_⟩
  · intro r
    unfold Login.authenticate_user
    cases hfind : users.find? (fun x => x.username == username) with
    | none => simp
    | some u =>
        simp only [Login.hash_password]
        by_cases hh : kdf password u.salt 100000 = u.password_hash
        · have hb : (kdf password u.salt 100000 == u.password_hash) = true :=
            beq_iff_eq.mpr hh
          simp [hb, hh]
        · have hb : (kdf password u.salt 100000 == u.password_hash) = false := by
            simp [hh]
          simp [hb, hh]
  · intro hnone
    unfold Login.authenticate_user
    rw [hnone]
  · intro u hfind hh
    unfold Login.authenticate_user
    rw [hfind]
    have hb : (kdf password u.salt 100000 == u.password_hash) = false := by
      simp [hh]
    simp only [Login.hash_password]
    simp [hb]

theorem authenticate_user_correct_witness :
    Login.authenticate_user testKdf demoUsers "mallory" "pw" = none :=
  (authenticate_user_correct testKdf demoUsers "mallory" "pw").2.1 (by decide)

/-- C10: the three authentication implementations — `Login.authenticate_user`
in main.py, the module-level `authenticate_user` in login.py, and the
module-level `authenticate_user` in records.py — are extensionally equal: for
every user table and every (username, password) input all three return the
same result. -/
theorem authenticate_implementations_agree (kdf : KDF) (users : List UserRow)
    (username password : String) :
    Login.authenticate_user kdf users username password =
      LoginPy.authenticate_user kdf users username password ∧
    LoginPy.authenticate_user kdf users username password =
      RecordsPy.authenticate_user kdf users username password :=
  ⟨rfl, rfl⟩

/-- C5: `Login.hash_password` with a given salt equals PBKDF2-HMAC-SHA256 of
(password, salt, iterations) paired with that salt, and is deterministic for a
fixed (password, salt, iterations) triple — in particular it does not depend
on the system randomness; with salt absent, the 16 bytes drawn from
`os.urandom(16)` become the salt and are returned together with the hash. -/
theorem hash_password_correct (kdf : KDF) (rand rand2 s : Bytes) (password : String)
    (iterations : Nat) (h16 : rand.length = 16) :
    Login.hash_password kdf rand password (some s) iterations =
      (kdf password s iterations, s) ∧
    Login.hash_password kdf rand password (some s) iterations =
      Login.hash_password kdf rand2 password (some s) iterations ∧
    Login.hash_password kdf rand password none iterations =
      (kdf password rand iterations, rand) ∧
    (Login.hash_password kdf rand password none iterations).2.length = 16 :=
  ⟨rfl, rfl, rfl, h16⟩

theorem hash_password_correct_witness :
    (List.replicate 16 0 : Bytes).length = 16 ∧
    (Login.hash_password testKdf (List.replicate 16 0) "pw" none 100000).2.length = 16 :=
  ⟨by decide,
   (hash_password_correct testKdf (List.replicate 16 0) [] [] "pw" 100000 (by decide)).2.2.2⟩

/-- C2: a caller whose credentials do not authenticate to the admin role
(including failed authentication) gets Permission Denied from both
`add_record` and `remove_record`, and the returned state is exactly the
starting state: no content table and no modification_history entry changes
(zero side effects on denial). -/
theorem non_admin_denied_no_mutation (kdf : KDF) (sha : SHA) (db : DB)
    (username password table : String) (data : Fields) (record_id : Nat)
    (h : Login.authenticate_user kdf db.users username password ≠ some "admin") :
    add_record kdf sha db username password table data =
      some ⟨db, none, [Msg.permissionDeniedCreate]⟩ ∧
    remove_record kdf db username password table record_id =
      some ⟨db, none, [Msg.permissionDeniedDelete]⟩ :=
  ⟨add_record_denied h, remove_record_denied h⟩

theorem non_admin_denied_no_mutation_witness :
    add_record testKdf testSha demoDB "alice" "pw" "lyrics" demoData =
      some ⟨demoDB, none, [Msg.permissionDeniedCreate]⟩ ∧
    remove_record testKdf demoDB "alice" "pw" "lyrics" 1 =
      some ⟨demoDB, none, [Msg.permissionDeniedDelete]⟩ :=
  non_admin_denied_no_mutation testKdf testSha demoDB "alice" "pw" "lyrics" demoData 1
    (by decide)

/-- Gateway logging (main.py only): under admin credentials, every successful
insert through `add_record` appends exactly one modification_history entry
recording the table, the action INSERT and the created record's identifier
(`cursor.lastrowid`, which is also the id of the row just appended to the
table), and every successful delete through `remove_record` appends exactly
one entry recording the table, the action DELETE and the targeted identifier,
in the same logical transaction. The records.py mutation helpers do not share
this property. -/
theorem mutation_appends_one_history_entry (kdf : KDF) (sha : SHA) (db : DB)
    (username password table : String) (data data2 : Fields) (db1 db3 : DB)
    (insRid delRid : Nat)
    (hadmin : Login.authenticate_user kdf db.users username password = some "admin") :
    (prepare_values sha table data = some data2 →
     executeInsert db table data2 = some (db1, insRid) →
     add_record kdf sha db username password table data =
       some ⟨append_history db1 table "INSERT" insRid, none, [Msg.recordAdded table]⟩ ∧
     (append_history db1 table "INSERT" insRid).modification_history =
       db.modification_history ++ [⟨db.history_next, table, "INSERT", insRid⟩] ∧
     table_ids (append_history db1 table "INSERT" insRid) table =
       table_ids db table ++ [insRid]) ∧
    (isContent table = true →
     executeDelete db table delRid = some db3 →
     remove_record kdf db username password table delRid =
       some ⟨append_history db3 table "DELETE" delRid, none, [Msg.recordDeleted table]⟩ ∧
     (append_history db3 table "DELETE" delRid).modification_history =
       db.modification_history ++ [⟨db.history_next, table, "DELETE", delRid⟩]) := by
  constructor
  · intro hprep hins
    obtain ⟨hcont, hhist, hnext, husers, hacc, hids⟩ := executeInsert_spec hins
    refine ⟨add_record_admin hadmin hprep hins, ?_, ?_⟩
    · simp [append_history, hhist, hnext]
    · rw [table_ids_append_history]
      exact hids
  · intro hcont hdel
    obtain ⟨db3x, hdelx, hh3, hn3, hu3, ha3, hi3⟩ :=
      @executeDelete_content_spec db table delRid hcont
    rw [hdel] at hdelx
    have heq : db3 = db3x := Option.some.inj hdelx
    subst heq
    refine ⟨remove_record_admin hadmin hdel, ?_⟩
    simp [append_history, hh3, hn3]

theorem mutation_appends_one_history_entry_witness :
    add_record testKdf testSha demoDB "bob" "pw" "lyrics" demoData =
      some ⟨append_history demoDBIns "lyrics" "INSERT" 1, none, [Msg.recordAdded "lyrics"]⟩ ∧
    (append_history demoDBIns "lyrics" "INSERT" 1).modification_history =
      demoDB.modification_history ++ [⟨1, "lyrics", "INSERT", 1⟩] ∧
    table_ids (append_history demoDBIns "lyrics" "INSERT" 1) "lyrics" =
      table_ids demoDB "lyrics" ++ [1] :=
  (mutation_appends_one_history_entry testKdf testSha demoDB "bob" "pw" "lyrics"
    demoData demoData demoDBIns demoDB 1 0 (by decide)).1 (by decide) (by decide)

/-- C7: under admin credentials, removing an identifier that is absent from a
content table leaves every content table unchanged (the DELETE is a no-op)
but still appends a modification_history entry with action DELETE for that
identifier. -/
theorem remove_nonexistent_logs_delete (kdf : KDF) (db : DB)
    (username password table : String) (rid : Nat)
    (hadmin : Login.authenticate_user kdf db.users username password = some "admin")
    (hc : isContent table = true)
    (habs : rid ∉ table_ids db table) :
    remove_record kdf db username password table rid =
      some ⟨append_history db table "DELETE" rid, none, [Msg.recordDeleted table]⟩ ∧
    (append_history db table "DELETE" rid).lyrics = db.lyrics ∧
    (append_history db table "DELETE" rid).music_scores = db.music_scores ∧
    (append_history db table "DELETE" rid).musical_recordings = db.musical_recordings ∧
    (append_history db table "DELETE" rid).modification_history =
      db.modification_history ++ [⟨db.history_next, table, "DELETE", rid⟩] :=
  ⟨remove_record_admin hadmin (executeDelete_content_noop hc habs), rfl, rfl, rfl, rfl⟩

theorem remove_nonexistent_logs_delete_witness :
    remove_record testKdf demoDB "bob" "pw" "lyrics" 7 =
      some ⟨append_history demoDB "lyrics" "DELETE" 7, none, [Msg.recordDeleted "lyrics"]⟩ ∧
    (append_history demoDB "lyrics" "DELETE" 7).lyrics = demoDB.lyrics ∧
    (append_history demoDB "lyrics" "DELETE" 7).music_scores = demoDB.music_scores ∧
    (append_history demoDB "lyrics" "DELETE" 7).musical_recordings =
      demoDB.musical_recordings ∧
    (append_history demoDB "lyrics" "DELETE" 7).modification_history =
      demoDB.modification_history ++ [⟨1, "lyrics", "DELETE", 7⟩] :=
  remove_nonexistent_logs_delete testKdf demoDB "bob" "pw" "lyrics" 7
    (by decide) (by decide) (by decide)

/-- C4: the checksum is the SHA-256 hex digest of the raw payload bytes and is
deterministic in them, and a successful admin insert into the
musical_recordings table stores exactly `compute_checksum` of the recording
payload alongside the new row at insert time. -/
theorem checksum_stored_on_insert (kdf : KDF) (sha : SHA) (db : DB)
    (username password : String) (data : Fields) (t : String) (r : Bytes)
    (hadmin : Login.authenticate_user kdf db.users username password = some "admin")
    (ht : getText data "song_title" = some t)
    (hr : getBlob data "recording" = some r)
    (hk : keysIn data ["song_title", "recording"] = true) :
    compute_checksum sha r = sha r ∧
    (∀ r2 : Bytes, r = r2 → compute_checksum sha r = compute_checksum sha r2) ∧
    add_record kdf sha db username password "musical_recordings" data =
      some ⟨append_history
              { db with musical_recordings :=
                          db.musical_recordings ++
                            [⟨db.musical_recordings_next, t, r, compute_checksum sha r⟩],
                        musical_recordings_next := db.musical_recordings_next + 1 }
              "musical_recordings" "INSERT" db.musical_recordings_next,
            none, [Msg.recordAdded "musical_recordings"]⟩ := by
  have hlt : List.lookup "song_title" data = some (Value.text t) := getText_eq_some.mp ht
  have hlr : List.lookup "recording" data = some (Value.blob r) := getBlob_eq_some.mp hr
  have hprep : prepare_values sha "musical_recordings" data =
      some (data ++ [("checksum", Value.text (compute_checksum sha r))]) := by
    simp [prepare_values, hr]
  have ht2 : getText (data ++ [("checksum", Value.text (compute_checksum sha r))])
      "song_title" = some t := getText_eq_some.mpr (lookup_append_of_some hlt)
  have hr2 : getBlob (data ++ [("checksum", Value.text (compute_checksum sha r))])
      "recording" = some r := getBlob_eq_some.mpr (lookup_append_of_some hlr)
  have hnone : List.lookup "checksum" data = none :=
    lookup_none_of_keysIn hk (by decide)
  have hc2 : getText (data ++ [("checksum", Value.text (compute_checksum sha r))])
      "checksum" = some (compute_checksum sha r) := by
    apply getText_eq_some.mpr
    rw [lookup_append_of_none hnone, lookup_cons]
    simp
  have hk2 : keysIn (data ++ [("checksum", Value.text (compute_checksum sha r))])
      ["song_title", "recording", "checksum"] = true := by
    rw [keysIn_append, keysIn_extend hk]
    simp [keysIn]
  have hins : executeInsert db "musical_recordings"
      (data ++ [("checksum", Value.text (compute_checksum sha r))]) =
      some ({ db with musical_recordings :=
                        db.musical_recordings ++
                          [⟨db.musical_recordings_next, t, r, compute_checksum sha r⟩],
                      musical_recordings_next := db.musical_recordings_next + 1 },
            db.musical_recordings_next) := by
    have hred : executeInsert db "musical_recordings"
        (data ++ [("checksum", Value.text (compute_checksum sha r))]) =
        insert_musical_recordings db
          (data ++ [("checksum", Value.text (compute_checksum sha r))]) := by
      simp [executeInsert]
    rw [hred]
    exact insert_musical_recordings_eq ht2 hr2 hc2 hk2
  exact ⟨rfl, fun r2 h => by rw [h], add_record_admin hadmin hprep hins⟩

theorem checksum_stored_on_insert_witness :
    add_record testKdf testSha demoDB "bob" "pw" "musical_recordings" demoRecData =
      some ⟨append_history
              { demoDB with musical_recordings :=
                              [⟨1, "X", [1, 2], compute_checksum testSha [1, 2]⟩],
                            musical_recordings_next := 2 }
              "musical_recordings" "INSERT" 1,
            none, [Msg.recordAdded "musical_recordings"]⟩ :=
  (checksum_stored_on_insert testKdf testSha demoDB "bob" "pw" demoRecData "X" [1, 2]
    (by decide) (by decide) (by decide) (by decide)).2.2

/-- C6: under admin credentials, a successful `add_record` followed by
`remove_record` with the identifier `add_record` created leaves the content
table without that record, and — the ledger holding no prior entry for that
(table, identifier) pair — the ledger's entries for that pair are exactly one
INSERT entry followed by one DELETE entry, the INSERT appended first. -/
theorem add_then_remove_roundtrip (kdf : KDF) (sha : SHA) (db : DB)
    (username password table : String) (data data2 : Fields) (db1 db3 : DB) (rid : Nat)
    (hadmin : Login.authenticate_user kdf db.users username password = some "admin")
    (hprep : prepare_values sha table data = some data2)
    (hins : executeInsert db table data2 = some (db1, rid))
    (hdel : executeDelete (append_history db1 table "INSERT" rid) table rid = some db3)
    (hfresh : ∀ e ∈ db.modification_history,
      ¬(e.table_name = table ∧ e.record_id = rid)) :
    add_record kdf sha db username password table data =
      some ⟨append_history db1 table "INSERT" rid, none, [Msg.recordAdded table]⟩ ∧
    remove_record kdf (append_history db1 table "INSERT" rid) username password table rid =
      some ⟨append_history db3 table "DELETE" rid, none, [Msg.recordDeleted table]⟩ ∧
    rid ∉ table_ids (append_history db3 table "DELETE" rid) table ∧
    (append_history db3 table "DELETE" rid).modification_history.filter
        (fun e => e.table_name == table && e.record_id == rid) =
      [⟨db.history_next, table, "INSERT", rid⟩,
       ⟨db.history_next + 1, table, "DELETE", rid⟩] := by
  obtain ⟨hcont, hhist, hnext, husers, hacc, hids⟩ := executeInsert_spec hins
  obtain ⟨db3x, hdelx, hh3, hn3, hu3, ha3, hi3⟩ :=
    @executeDelete_content_spec (append_history db1 table "INSERT" rid) table rid hcont
  rw [hdel] at hdelx
  have heq : db3 = db3x := Option.some.inj hdelx
  subst heq
  have hadminA : Login.authenticate_user kdf
      (append_history db1 table "INSERT" rid).users username password = some "admin" := by
    have h : (append_history db1 table "INSERT" rid).users = db.users := husers
    rw [h]
    exact hadmin
  refine ⟨add_record_admin hadmin hprep hins, remove_record_admin hadminA hdel, ?_, ?_⟩
  · rw [table_ids_append_history, hi3]
    intro hmem
    have hcond := (List.mem_filter.mp hmem).2
    simp at hcond
  · have hmhA : (append_history db1 table "INSERT" rid).modification_history =
        db.modification_history ++ [⟨db.history_next, table, "INSERT", rid⟩] := by
      show db1.modification_history ++ [⟨db1.history_next, table, "INSERT", rid⟩] = _
      rw [hhist, hnext]
    have hnA : (append_history db1 table "INSERT" rid).history_next =
        db.history_next + 1 := by
      show db1.history_next + 1 = _
      rw [hnext]
    have hmh : (append_history db3 table "DELETE" rid).modification_history =
        (db.modification_history ++ [⟨db.history_next, table, "INSERT", rid⟩]) ++
          [⟨db.history_next + 1, table, "DELETE", rid⟩] := by
      show db3.modification_history ++ [⟨db3.history_next, table, "DELETE", rid⟩] = _
      rw [hh3, hn3, hmhA, hnA]
    rw [hmh, List.filter_append, List.filter_append]
    have h0 : db.modification_history.filter
        (fun e => e.table_name == table && e.record_id == rid) = [] := by
      rw [List.filter_eq_nil_iff]
      intro e he hp
      rw [Bool.and_eq_true] at hp
      exact hfresh e he ⟨beq_iff_eq.mp hp.1, beq_iff_eq.mp hp.2⟩
    rw [h0]
    simp

theorem add_then_remove_roundtrip_witness :
    add_record testKdf testSha demoDB "bob" "pw" "lyrics" demoData =
      some ⟨append_history demoDBIns "lyrics" "INSERT" 1, none,
            [Msg.recordAdded "lyrics"]⟩ ∧
    remove_record testKdf (append_history demoDBIns "lyrics" "INSERT" 1)
        "bob" "pw" "lyrics" 1 =
      some ⟨append_history demoDBDel "lyrics" "DELETE" 1, none,
            [Msg.recordDeleted "lyrics"]⟩ ∧
    1 ∉ table_ids (append_history demoDBDel "lyrics" "DELETE" 1) "lyrics" ∧
    (append_history demoDBDel "lyrics" "DELETE" 1).modification_history.filter
        (fun e => e.table_name == "lyrics" && e.record_id == 1) =
      [⟨1, "lyrics", "INSERT", 1⟩, ⟨2, "lyrics", "DELETE", 1⟩] :=
  add_then_remove_roundtrip testKdf testSha demoDB "bob" "pw" "lyrics" demoData demoData
    demoDBIns demoDBDel 1 (by decide) (by decide) (by decide) (by decide) (by decide)

/-- C8 counterexample: the claim that `add_record` returns one of three
distinct result variants distinguishable from the returned value alone is
false on the code. At concrete inputs, a successful admin insert and a denied
non-admin attempt both return the same Python value None (the source returns
bare `return` on denial and falls off the end on success), even though the
first mutated the store and the second did not. -/
theorem add_record_uniform_return_counterexample :
    Option.map PyRes.ret (add_record testKdf testSha demoDB "bob" "pw" "lyrics" demoData) =
      some none ∧
    Option.map PyRes.ret (add_record testKdf testSha demoDB "alice" "pw" "lyrics" demoData) =
      some none ∧
    Option.map PyRes.db (add_record testKdf testSha demoDB "alice" "pw" "lyrics" demoData) =
      some demoDB ∧
    Option.map PyRes.db (add_record testKdf testSha demoDB "bob" "pw" "lyrics" demoData) ≠
      some demoDB := by decide

/-- C8 (amended): every non-raising call of `add_record` returns the Python
value None, on the denial path and on the success path alike; the outcome is
signalled by the printed message (Permission Denied versus the insertion
confirmation) and by the state change, not by the returned value, and a store
failure raises an exception instead of producing a return value. -/
theorem add_record_returns_none (kdf : KDF) (sha : SHA) (db : DB)
    (username password table : String) (data : Fields) (res : PyRes)
    (h : add_record kdf sha db username password table data = some res) :
    res.ret = none ∧
    (res.out = [Msg.permissionDeniedCreate] ∨ res.out = [Msg.recordAdded table]) := by
  by_cases hrole : Login.authenticate_user kdf db.users username password = some "admin"
  · unfold add_record at h
    rw [hrole] at h
    simp only [bne_self_eq_false, Bool.false_eq_true, if_false] at h
    split at h
    · exact absurd h (by simp)
    · split at h
      · exact absurd h (by simp)
      · have h2 := Option.some.inj h
        subst h2
        exact ⟨rfl, Or.inr rfl⟩
  · rw [add_record_denied hrole] at h
    have h2 := Option.some.inj h
    subst h2
    exact ⟨rfl, Or.inl rfl⟩

theorem add_record_returns_none_witness :
    (⟨append_history demoDBIns "lyrics" "INSERT" 1, none,
      [Msg.recordAdded "lyrics"]⟩ : PyRes).ret = none ∧
    ((⟨append_history demoDBIns "lyrics" "INSERT" 1, none,
       [Msg.recordAdded "lyrics"]⟩ : PyRes).out = [Msg.permissionDeniedCreate] ∨
     (⟨append_history demoDBIns "lyrics" "INSERT" 1, none,
       [Msg.recordAdded "lyrics"]⟩ : PyRes).out = [Msg.recordAdded "lyrics"]) :=
  add_record_returns_none testKdf testSha demoDB "bob" "pw" "lyrics" demoData _ (by decide)

/-- C9: `register_user` checks email uniqueness against the accounts table
before username uniqueness against the users table and reports the first
violation found — a duplicate email short-circuits before the
duplicate-username check — and on either violation the state is returned
exactly unchanged (no new Account, no new Credential) with the failure
result (None, None). -/
theorem register_duplicate_checks (kdf : KDF) (urandom16 : Bytes) (db : DB)
    (first_name last_name dob email username password role : String) :
    (db.accounts.any (fun a => a.email == email) = true →
      register_user kdf urandom16 db first_name last_name dob email username password role =
        some (db, none, [Msg.registrationFailedEmail email])) ∧
    (db.accounts.any (fun a => a.email == email) = false →
      db.users.any (fun u => u.username == username) = true →
      register_user kdf urandom16 db first_name last_name dob email username password role =
        some (db, none, [Msg.registrationFailedUsername username])) := by
  constructor
  · intro h
    simp [register_user, h]
  · intro h1 h2
    simp [register_user, h1, h2]

theorem register_duplicate_checks_witness :
    register_user testKdf (List.replicate 16 0) demoDB "Eve" "Jones" "2000-01-01"
        "alice@example.com" "alice" "pw" "user" =
      some (demoDB, none, [Msg.registrationFailedEmail "alice@example.com"]) :=
  (register_duplicate_checks testKdf (List.replicate 16 0) demoDB "Eve" "Jones"
    "2000-01-01" "alice@example.com" "alice" "pw" "user").1 (by decide)

/-- C3: the claim that every successful insert or delete against a content
table appends exactly one modification_history entry is violated by the code:
records.py's `create_lyrics` (lines 74-80, cited by the claim) successfully
inserts a lyrics row yet leaves the modification_history ledger exactly
unchanged, for every starting state and every field values — in particular,
on the concrete demo state the insert succeeds and the ledger stays empty.
The same holds for all records.py mutation helpers; only main.py's gateway
logs its mutations. -/
theorem create_lyrics_bypasses_history (db : DB) (song_title lyrics : String) :
    (RecordsPy.create_lyrics db song_title lyrics).lyrics =
      db.lyrics ++ [⟨db.lyrics_next, song_title, lyrics⟩] ∧
    (RecordsPy.create_lyrics db song_title lyrics).modification_history =
      db.modification_history ∧
    (RecordsPy.create_lyrics demoDB "X" "la").lyrics = [⟨1, "X", "la"⟩] ∧
    (RecordsPy.create_lyrics demoDB "X" "la").modification_history = [] :=
  ⟨rfl, rfl, rfl, rfl⟩
